import Mathlib

/-!
Shallow embedding of `src/webdavfs/webdavfs.py` (classes `WebDAVFile` and
`WebDAVFS`).  Bytes are modelled as `List Nat`; the in-memory `io.BytesIO`
object of a `WebDAVFile` is modelled by its byte content (`buffer`) together
with its internal stream position (`cursor`).  The handle's own `self.pos`
attribute is a Python integer, modelled as `Int`.  Remote state is modelled
per path: a path is absent, a file with some content, or a directory.
-/

deriving instance DecidableEq for Except

namespace WebDAV

/-- Byte sequences (`bytes` in the source). -/
abbrev Bytes := List Nat

/-- The facets of `fs.mode.Mode` consulted by the source: `reading`,
`writing`, `appending` (`'a' in mode` on the raw string agrees with this for
ordinary mode strings), `exclusive`. -/
structure Mode where
  reading : Bool
  writing : Bool
  appending : Bool
  exclusive : Bool
deriving DecidableEq, Repr

/-- `Mode("wb")`: writing only. -/
def Mode.w : Mode := ⟨false, true, false, false⟩

/-- `Mode("rb")`: reading only. -/
def Mode.r : Mode := ⟨true, false, false, false⟩

/-- `Mode("r+b")` / `Mode("w+b")` facets: reading and writing. -/
def Mode.rw : Mode := ⟨true, true, false, false⟩

/-- `Mode("xb")`: exclusive create, writing, not reading. -/
def Mode.x : Mode := ⟨false, true, false, true⟩

/-- The Python exceptions raised by the embedded code paths.  `valueError`
is Python's `ValueError`; `notReadable` / `notWritable` are the `IOError`s
raised by `read` / `write`; `attributeError` is the `AttributeError` raised
by `__init__` when `'a' in mode` (it calls `self._get_data_size()`, which is
defined nowhere in the file); `keyError k` is `KeyError(k)`;
`resourceNotFound`, `fileExists`, `fileExpected` are the `fs.errors`
classes raised by `WebDAVFS.openbin`. -/
inductive FSError
  | resourceNotFound
  | fileExists
  | fileExpected
  | attributeError
  | notReadable
  | notWritable
  | valueError
  | keyError (k : String)
deriving DecidableEq, Repr

/-- State of one `WebDAVFile`: `buffer`/`cursor` model the `io.BytesIO`
object `self.data` (its byte content and its internal stream position), and
`pos` models the separate attribute `self.pos`. -/
structure FileState where
  buffer : Bytes
  cursor : Nat
  pos : Int
  mode : Mode
deriving DecidableEq, Repr

/-- `io.BytesIO.read(size)`: a negative size reads from the stream position
to the end of the buffer; a non-negative size reads up to `size` bytes.
Returns the bytes read and the new stream position (reading at a position
past the end returns nothing and does not move the position). -/
def bioRead (buf : Bytes) (cursor : Nat) (size : Int) : Bytes × Nat :=
  if size < 0 then
    (buf.drop cursor, max cursor buf.length)
  else
    let out := (buf.drop cursor).take size.toNat
    (out, cursor + out.length)

/-- `io.BytesIO.write(d)`: writing nothing is a no-op; otherwise the stream
is zero-filled up to the position if the position is past the end, the bytes
overwrite in place and extend the buffer as needed, and the position
advances by `d.length` (the value `write` returns). -/
def bioWrite (buf : Bytes) (cursor : Nat) (d : Bytes) : Bytes × Nat :=
  if d.isEmpty then
    (buf, cursor)
  else
    let padded := buf ++ List.replicate (cursor - buf.length) 0
    (padded.take cursor ++ d ++ padded.drop (cursor + d.length), cursor + d.length)

/-- `WebDAVFile.__init__` together with `_get_file_data`: the remote content
is downloaded into the buffer (`res.write_to(data)`), a missing remote
resource (`RemoteResourceNotFound`) yields an empty buffer, and for
non-append modes the buffer is rewound to position 0; `self.pos` starts
at 0.  When `'a' in mode`, `__init__` evaluates `self._get_data_size()`,
a method defined nowhere in the file, so the constructor raises
`AttributeError`. -/
def openFile (remote : Option Bytes) (m : Mode) : Except FSError FileState :=
  if m.appending then
    .error .attributeError
  else
    .ok { buffer := remote.getD [], cursor := 0, pos := 0, mode := m }

/-- `fs.enums.Seek`: `set` / `current` / `end`. -/
inductive Whence
  | set
  | cur
  | end_
deriving DecidableEq, Repr

/-- `WebDAVFile.seek`: `set` rejects a negative target, `current` clamps
`self.pos + p` at 0, `end` rejects a positive offset and clamps
`len + p` at 0; afterwards `self.data.seek(self.pos)` synchronises the
buffer's stream position, and the new `self.pos` is returned. -/
def seek (s : FileState) (p : Int) (w : Whence) : Except FSError (Int × FileState) :=
  match w with
  | .set =>
      if p < 0 then .error .valueError
      else .ok (p, { s with pos := p, cursor := p.toNat })
  | .cur =>
      let q := max 0 (s.pos + p)
      .ok (q, { s with pos := q, cursor := q.toNat })
  | .end_ =>
      if p > 0 then .error .valueError
      else
        let q := max 0 ((s.buffer.length : Int) + p)
        .ok (q, { s with pos := q, cursor := q.toNat })

/-- `WebDAVFile.tell`: returns `self.pos`. -/
def tell (s : FileState) : Int := s.pos

/-- `WebDAVFile.read`: raises `IOError` unless the mode allows reading;
sets `self.pos` to `self.pos + size` when `size != -1` and to
`self.__length_hint__()` (the buffer length) when `size == -1`; returns
`self.data.read(size)`. -/
def read (s : FileState) (size : Int) : Except FSError (Bytes × FileState) :=
  if s.mode.reading = false then
    .error .notReadable
  else
    let pos := if size ≠ -1 then s.pos + size else (s.buffer.length : Int)
    let r := bioRead s.buffer s.cursor size
    .ok (r.1, { s with pos := pos, cursor := r.2 })

/-- `WebDAVFile.write`: raises `IOError` unless the mode allows writing;
writes through `self.data.write(data)` and then calls
`self.seek(bytes_written, Seek.current)`; returns the bytes written. -/
def write (s : FileState) (d : Bytes) : Except FSError (Nat × FileState) :=
  if s.mode.writing = false then
    .error .notWritable
  else
    let r := bioWrite s.buffer s.cursor d
    match seek { s with buffer := r.1, cursor := r.2 } (d.length : Int) .cur with
    | .ok q => .ok (d.length, q.2)
    | .error e => .error e

/-- `WebDAVFile.truncate`: `self.data.truncate(size)` resizes the `BytesIO`
buffer to `size` (to the stream position when `size` is `None`; growing is a
no-op), then, when `size` is truthy and exceeds the resulting buffer length,
writes that many zero bytes through `self.data.write` at the stream
position; returns `size or data_size`. -/
def truncate (s : FileState) (size : Option Nat) : Nat × FileState :=
  let sz := size.getD s.cursor
  let buf1 := s.buffer.take sz
  let dataSize := buf1.length
  match size with
  | none => (dataSize, { s with buffer := buf1 })
  | some n =>
      if n ≠ 0 ∧ dataSize < n then
        let r := bioWrite buf1 s.cursor (List.replicate (n - dataSize) 0)
        (n, { s with buffer := r.1, cursor := r.2 })
      else
        (if n = 0 then dataSize else n, { s with buffer := buf1 })

/-- `WebDAVFile.flush`: when the mode allows writing, `self.data.seek(0)`
rewinds the stream and `self.res.read_from(self.data)` uploads the whole
buffer, consuming the stream (its position ends at the buffer length);
`self.pos` is untouched.  Returns the state after the call and the bytes
uploaded (`none` when the mode is read-only, in which case nothing
happens). -/
def flush (s : FileState) : FileState × Option Bytes :=
  if s.mode.writing then
    ({ s with cursor := s.buffer.length }, some s.buffer)
  else
    (s, none)

/-- `WebDAVFile.close`: a first close flushes (uploading the buffer when
writable) and then releases the buffer; this models the remote effect. -/
def close (s : FileState) : Option Bytes := (flush s).2

/-- The remote state at one path, as observed by `WebDAVFS.getinfo`. -/
inductive RemoteEntry
  | absent
  | file (content : Bytes)
  | dir
deriving DecidableEq, Repr

/-- `Option Bytes` (content at a path, or nothing) as a `RemoteEntry`. -/
def entryOf : Option Bytes → RemoteEntry
  | none => .absent
  | some c => .file c

/-- `WebDAVFS.openbin`: `getinfo` failing with `ResourceNotFound` re-raises
it only when the mode reads; a directory raises `FileExpected`; on both
remaining paths — the path existing as a file, and the path absent with a
non-reading mode — the `if _mode.exclusive` check runs (it sits outside the
`else` branch of the `try`) and raises `FileExists`; otherwise a
`WebDAVFile` is constructed, downloading the current content. -/
def openbin (entry : RemoteEntry) (m : Mode) : Except FSError FileState :=
  match entry with
  | .absent =>
      if m.reading then .error .resourceNotFound
      else if m.exclusive then .error .fileExists
      else openFile none m
  | .dir => .error .fileExpected
  | .file c =>
      if m.exclusive then .error .fileExists
      else openFile (some c) m

/-- Scenario: `openbin(p, "w")`, `write(B)`, `close()`.  Returns the remote
content at `p` after the close uploads the buffer. -/
def remoteAfterWriteClose (initial : Option Bytes) (b : Bytes) :
    Except FSError (Option Bytes) := do
  let h ← openbin (entryOf initial) Mode.w
  let r ← write h b
  return close r.2

/-- Scenario of the round-trip property: write `b` through a `"w"` handle,
close, reopen with `"r"`, `read(-1)`. -/
def roundTrip (initial : Option Bytes) (b : Bytes) : Except FSError Bytes := do
  let up ← remoteAfterWriteClose initial b
  let h ← openbin (entryOf (some (up.getD (initial.getD [])))) Mode.r
  let r ← read h (-1)
  return r.1

/-- The key sets `basics`, `details`, `access` of the module. -/
def basics : List String := ["name"]

/-- Module-level frozenset `details`. -/
def details : List String :=
  ["type", "accessed", "modified", "created", "metadata_changed", "size"]

/-- Module-level frozenset `access`. -/
def access : List String := ["permissions", "user", "uid", "gid", "group"]

/-- Values stored in the info dictionary: raw strings, parsed integers
(`int(val)` for `size`, `int(ResourceType.file)` for `type`), and the
boolean `False` stored under `is_dir`. -/
inductive Val
  | str (s : String)
  | int (n : Int)
  | bool (b : Bool)
deriving DecidableEq, Repr

/-- One namespace dictionary: Python `dict` assignment replaces an existing
key in place and otherwise appends. -/
def dictSet (l : List (String × Val)) (k : String) (v : Val) :
    List (String × Val) :=
  if l.any (fun kv => kv.1 = k) then
    l.map (fun kv => if kv.1 = k then (k, v) else kv)
  else
    l ++ [(k, v)]

/-- The dictionary built by `_create_info_dict`: it is initialised with the
three keys `basic`, `details` and `access` only. -/
structure InfoDict where
  basic : List (String × Val)
  details : List (String × Val)
  access : List (String × Val)
deriving DecidableEq, Repr

/-- The initial `info_dict`: `basic = {"is_dir": False}`,
`details = {"type": int(ResourceType.file)}` (`ResourceType.file = 2`),
`access = {}`.  No `other` key is created. -/
def initInfoDict : InfoDict :=
  { basic := [("is_dir", .bool false)]
    details := [("type", .int 2)]
    access := [] }

/-- Decimal digits accumulated most-significant first; a non-digit
character fails. -/
def decDigitsAux (acc : Nat) : List Char → Option Nat
  | [] => some acc
  | c :: cs =>
      if c.isDigit then decDigitsAux (acc * 10 + (c.toNat - 48)) cs
      else none

/-- Python `int(val)` on the raw string value: an optional minus sign
followed by decimal digits parses; anything else raises `ValueError`
(Python's tolerance for surrounding whitespace, a leading plus and
underscore separators is not modelled — no claim evaluates those
inputs). -/
def strToInt (s : String) : Except FSError Int :=
  match s.data with
  | [] => .error .valueError
  | '-' :: [] => .error .valueError
  | '-' :: cs =>
      match decDigitsAux 0 cs with
      | some n => .ok (-(n : Int))
      | none => .error .valueError
  | cs =>
      match decDigitsAux 0 cs with
      | some n => .ok (n : Int)
      | none => .error .valueError

/-- One iteration of the loop of `_create_info_dict` for a `(key, val)`
pair: a key in `basics` / `details` / `access` is stored in the matching
namespace (`size` with a truthy value is converted by `int`); any other key
is assigned through `info_dict["other"]`, and since `info_dict` has no
`"other"` entry this lookup raises `KeyError("other")`. -/
def infoStep (d : InfoDict) (kv : String × String) : Except FSError InfoDict :=
  let key := kv.1
  let val := kv.2
  if key ∈ basics then
    .ok { d with basic := dictSet d.basic key (.str val) }
  else if key ∈ details then
    if key = "size" ∧ val ≠ "" then do
      let n ← strToInt val
      .ok { d with details := dictSet d.details key (.int n) }
    else
      .ok { d with details := dictSet d.details key (.str val) }
  else if key ∈ access then
    .ok { d with access := dictSet d.access key (.str val) }
  else
    .error (.keyError "other")

/-- `WebDAVFS._create_info_dict`: folds `infoStep` over the raw attribute
mapping, starting from `initInfoDict`. -/
def createInfoDict (info : List (String × String)) : Except FSError InfoDict :=
  info.foldlM infoStep initInfoDict

/-- The consistency invariant of claim C6: the handle's reported position
`self.pos` coincides with the internal stream position of `self.data`. -/
def Synced (s : FileState) : Prop := s.pos = (s.cursor : Int)

instance (s : FileState) : Decidable (Synced s) :=
  inferInstanceAs (Decidable (s.pos = (s.cursor : Int)))

/-- C1, counterexample: the round trip does not return exactly `B` when the
remote resource already holds longer content — writing `[9]` over a remote
file holding `[1,2,3]` and reading back yields `[9,2,3]`, because opening in
write mode downloads the existing content without truncating it. -/
theorem c1_roundTrip_counterexample :
    roundTrip (some [1, 2, 3]) [9] = .ok [9, 2, 3] ∧ ([9, 2, 3] : Bytes) ≠ [9] := by
  decide

/-- C2, failing input: opening a non-existent path with the exclusive-create
mode `"xb"` raises `FileExists` instead of succeeding, because the
`if _mode.exclusive` check in `openbin` sits outside the `else` branch of
the `try` and therefore fires on every exclusive open; on an existing file
it raises `FileExists` as documented. -/
theorem c2_exclusive_create_bug :
    openbin .absent Mode.x = .error .fileExists ∧
    openbin (.file [1]) Mode.x = .error .fileExists := by
  decide

/-- C3, counterexample: on a readable handle over a 2-byte buffer, `read 5`
returns the 2 remaining bytes but advances the reported position to 5 —
past the end of the buffer — because `read` adds the requested size to
`self.pos` unconditionally. -/
theorem c3_read_counterexample :
    read ⟨[1, 2], 0, 0, Mode.r⟩ 5 = .ok ([1, 2], ⟨[1, 2], 2, 5, Mode.r⟩) ∧
    ¬ ((5 : Int) ≤ ([1, 2] : Bytes).length) := by
  decide

/-- C4, counterexample: on a 3-byte buffer with the cursor at 0,
`truncate 5` writes its two zero-padding bytes at the cursor, yielding the
3-byte buffer `[0,0,3]` rather than a 5-byte zero-padded one, while still
returning 5. -/
theorem c4_truncate_counterexample :
    truncate ⟨[1, 2, 3], 0, 0, Mode.rw⟩ (some 5) =
      (5, ⟨[0, 0, 3], 2, 0, Mode.rw⟩) ∧
    ([0, 0, 3] : Bytes).length ≠ 5 := by
  decide

/-- C5, counterexample: on a 3-byte buffer with the cursor at 1,
`truncate` with the size omitted truncates the buffer to the cursor
position — `BytesIO.truncate(None)` resizes to the stream position — so the
content becomes `[1]` and the returned value is 1, not the buffer length
3. -/
theorem c5_truncate_none_counterexample :
    truncate ⟨[1, 2, 3], 1, 1, Mode.rw⟩ none = (1, ⟨[1], 1, 1, Mode.rw⟩) ∧
    ([1] : Bytes) ≠ [1, 2, 3] ∧ (1 : Nat) ≠ ([1, 2, 3] : Bytes).length := by
  decide

/-- C5, amended: `truncate` with the size omitted truncates the buffer to
the current stream position — content is kept only up to the cursor — and
returns `min cursor length`; the position and cursor are untouched. -/
theorem c5_truncate_none_amended (s : FileState) :
    (truncate s none).1 = min s.cursor s.buffer.length ∧
    (truncate s none).2.buffer = s.buffer.take s.cursor ∧
    (truncate s none).2.pos = s.pos ∧
    (truncate s none).2.cursor = s.cursor := by
  refine ⟨?_, rfl, rfl, rfl⟩
  simp [truncate, List.length_take]

/-- C6, counterexample: the position/cursor consistency invariant does not
survive `flush` — on a freshly opened writable handle (position 0, cursor
0, buffer `[1,2,3]`), flushing moves the buffer's internal cursor to 3
while `self.pos` stays 0. -/
theorem c6_sync_counterexample :
    Synced (⟨[1, 2, 3], 0, 0, Mode.rw⟩ : FileState) ∧
    ¬ Synced (flush ⟨[1, 2, 3], 0, 0, Mode.rw⟩).1 := by
  decide

/-- C7, failing input: `_create_info_dict` on a mapping containing the
unrecognized key `"foo"` raises `KeyError("other")`, because the `else`
branch assigns through `info_dict["other"]` and `info_dict` is initialised
with only the `basic`, `details` and `access` buckets; recognized keys are
classified into their namespaces as documented. -/
theorem c7_info_dict_keyerror :
    createInfoDict [("foo", "bar")] = .error (.keyError "other") ∧
    createInfoDict [("name", "f"), ("size", "12"), ("user", "u")] =
      .ok { basic := [("is_dir", .bool false), ("name", .str "f")]
            details := [("type", .int 2), ("size", .int 12)]
            access := [("user", .str "u")] } := by
  decide

/-- C8: opening a missing path for reading fails with `ResourceNotFound`;
opening it for writing succeeds with an empty buffer, and closing that
handle uploads a zero-length file. -/
theorem c8_missing_file_policy :
    openbin .absent Mode.r = .error .resourceNotFound ∧
    openbin .absent Mode.w = .ok ⟨[], 0, 0, Mode.w⟩ ∧
    close (⟨[], 0, 0, Mode.w⟩ : FileState) = some [] := by
  decide

/-- C10, counterexample: `flush` is not content-and-position-only — it
also moves the buffer's internal stream cursor to the end of the buffer, an
observable state change (e.g. a subsequent `read(-1)` returns nothing), so
uploading is not its only effect on the handle. -/
theorem c10_flush_counterexample :
    (flush ⟨[1, 2, 3], 0, 0, Mode.rw⟩).2 = some [1, 2, 3] ∧
    (flush ⟨[1, 2, 3], 0, 0, Mode.rw⟩).1 ≠ ⟨[1, 2, 3], 0, 0, Mode.rw⟩ ∧
    read (flush ⟨[1, 2, 3], 0, 0, Mode.rw⟩).1 (-1) =
      .ok ([], ⟨[1, 2, 3], 3, 3, Mode.rw⟩) := by
  decide

/-- C10, amended: on a writable handle `flush` leaves the buffer content
and the reported position (`tell`) unchanged and uploads the entire buffer
— a second flush uploads the same bytes — but it additionally moves the
buffer's internal stream cursor to the end of the buffer. -/
theorem c10_flush_amended (s : FileState) (h : s.mode.writing = true) :
    (flush s).1.buffer = s.buffer ∧
    tell (flush s).1 = tell s ∧
    (flush s).2 = some s.buffer ∧
    (flush (flush s).1).2 = some s.buffer ∧
    (flush s).1.cursor = s.buffer.length := by
  simp [flush, tell, h]

/-- C10, witness for the amended theorem at a concrete writable handle. -/
theorem c10_flush_witness :
    (⟨[1, 2], 0, 0, Mode.w⟩ : FileState).mode.writing = true ∧
    (flush ⟨[1, 2], 0, 0, Mode.w⟩).2 = some [1, 2] :=
  ⟨by decide, (c10_flush_amended ⟨[1, 2], 0, 0, Mode.w⟩ (by decide)).2.2.1⟩

/-- C1, amended: the write-then-read round trip through a `"w"` handle
returns `B` followed by whatever part of the pre-existing remote content
lies beyond the first `length B` bytes — so it returns exactly `B` precisely
when the path was absent or its content was no longer than `B`; `"w"` mode
downloads the existing content and overwrites it in place without
truncating. -/
theorem c1_roundTrip_amended (i : Option Bytes) (b : Bytes) :
    roundTrip i b = .ok (b ++ (i.getD []).drop b.length) := by
  cases i <;> cases b <;>
    simp [roundTrip, remoteAfterWriteClose, openbin, entryOf, openFile, write, bioWrite,
      seek, read, bioRead, flush, close, tell, Mode.w, Mode.r, Option.getD, bind,
      Except.bind, pure, Except.pure, Int.toNat_of_nonneg, max_eq_right,
      Int.natCast_nonneg]

/-- C3, amended: `read n` with `n ≠ -1` advances the reported position by
exactly the requested count `n` — even past the end of the buffer — while
`read (-1)` sets it to the buffer length; the buffer's internal cursor, by
contrast, advances by the number of bytes actually returned. -/
theorem c3_read_amended (s : FileState) (n : Int) (out : Bytes) (t : FileState)
    (h : read s n = .ok (out, t)) :
    (n = -1 → t.pos = (s.buffer.length : Int)) ∧
    (n ≠ -1 → t.pos = s.pos + n) ∧
    (0 ≤ n → t.cursor = s.cursor + out.length) := by
  simp only [read] at h
  split at h
  · simp at h
  · rw [Except.ok.injEq, Prod.mk.injEq] at h
    obtain ⟨h1, h2⟩ := h
    subst h2
    refine ⟨fun hn => by simp [hn], fun hn => by simp [hn], fun hn => ?_⟩
    subst h1
    simp [bioRead, not_lt.mpr hn]

/-- C3, witness for the amended theorem: reading 5 bytes from a 2-byte
buffer advances the position by 5. -/
theorem c3_read_witness :
    read ⟨[1, 2], 0, 0, Mode.r⟩ 5 = .ok ([1, 2], ⟨[1, 2], 2, 5, Mode.r⟩) ∧
    (⟨[1, 2], 2, 5, Mode.r⟩ : FileState).pos =
      (⟨[1, 2], 0, 0, Mode.r⟩ : FileState).pos + 5 := by
  have T := c3_read_amended ⟨[1, 2], 0, 0, Mode.r⟩ 5 [1, 2] ⟨[1, 2], 2, 5, Mode.r⟩ (by decide)
  exact ⟨by decide, T.2.1 (by decide)⟩

/-- C4, amended: when the buffer's cursor sits at the end of the buffer,
`truncate n` with `n` greater than the length extends the buffer with
`n − length` zero bytes and returns `n`; the zero padding is written at the
cursor, so away from the end it overwrites content in place instead (see
the counterexample). -/
theorem c4_truncate_amended (s : FileState) (n : Nat)
    (hc : s.cursor = s.buffer.length) (hn : s.buffer.length < n) :
    truncate s (some n) =
      (n, { s with buffer := s.buffer ++ List.replicate (n - s.buffer.length) 0,
                   cursor := n }) := by
  have hle : s.buffer.length ≤ n := le_of_lt hn
  have hd : n - s.buffer.length ≠ 0 := by omega
  simp only [truncate, Option.getD, bioWrite]
  rw [List.take_of_length_le hle]
  rw [if_pos ⟨by omega, hn⟩]
  rw [if_neg (by simp [List.isEmpty_iff, hd])]
  rw [hc]
  simp only [Nat.sub_self, List.replicate_zero, List.append_nil, List.take_length]
  rw [List.drop_eq_nil_of_le (by omega)]
  simp only [List.append_nil, List.length_replicate]
  rw [show s.buffer.length + (n - s.buffer.length) = n from by omega]

/-- C4, witness for the amended theorem: growing a 3-byte buffer to 5 with
the cursor at the end appends two zero bytes. -/
theorem c4_truncate_witness :
    (⟨[1, 2, 3], 3, 3, Mode.rw⟩ : FileState).cursor =
      (⟨[1, 2, 3], 3, 3, Mode.rw⟩ : FileState).buffer.length ∧
    (⟨[1, 2, 3], 3, 3, Mode.rw⟩ : FileState).buffer.length < 5 ∧
    truncate ⟨[1, 2, 3], 3, 3, Mode.rw⟩ (some 5) =
      (5, ⟨[1, 2, 3, 0, 0], 5, 3, Mode.rw⟩) := by
  have T := c4_truncate_amended ⟨[1, 2, 3], 3, 3, Mode.rw⟩ 5 (by decide) (by decide)
  refine ⟨by decide, by decide, ?_⟩
  rw [T]
  rfl

/-- Helper: every successful `seek` leaves the reported position equal to
the buffer cursor, because it ends with `self.data.seek(self.pos)` and
`self.pos` is non-negative on every success path. -/
lemma synced_of_seek {s : FileState} {p : Int} {w : Whence} {r : Int} {t : FileState}
    (hw : seek s p w = .ok (r, t)) : Synced t := by
  cases w <;> simp only [seek] at hw
  · split at hw
    · simp at hw
    · rw [Except.ok.injEq, Prod.mk.injEq] at hw
      obtain ⟨h1, h2⟩ := hw
      subst h2
      exact (Int.toNat_of_nonneg (not_lt.mp (by assumption))).symm
  · rw [Except.ok.injEq, Prod.mk.injEq] at hw
    obtain ⟨h1, h2⟩ := hw
    subst h2
    exact (Int.toNat_of_nonneg (le_max_left 0 _)).symm
  · split at hw
    · simp at hw
    · rw [Except.ok.injEq, Prod.mk.injEq] at hw
      obtain ⟨h1, h2⟩ := hw
      subst h2
      exact (Int.toNat_of_nonneg (le_max_left 0 _)).symm

/-- C6, amended: the position/cursor consistency invariant holds after
`open`, is re-established by every successful `seek` and `write`, and is
preserved by `read` whenever the request stays within the buffer and by
`truncate` whenever it does not zero-pad; it is not preserved by `flush`
(see the counterexample), by reads past the end of the buffer, or by a
zero-padding truncate. -/
theorem c6_sync_amended (s : FileState) (h : Synced s) :
    (∀ c m t, openFile c m = .ok t → Synced t) ∧
    (∀ p w r t, seek s p w = .ok (r, t) → Synced t) ∧
    (∀ d n t, write s d = .ok (n, t) → Synced t) ∧
    (∀ n out t, read s n = .ok (out, t) →
      (0 ≤ n ∧ s.cursor + n.toNat ≤ s.buffer.length ∨
        n = -1 ∧ s.cursor ≤ s.buffer.length) →
      Synced t) ∧
    Synced (truncate s none).2 ∧
    (∀ n, n ≤ s.buffer.length → Synced (truncate s (some n)).2) := by
  refine ⟨?_, ?_, ?_, ?_, ?_, ?_⟩
  · intro c m t ht
    simp only [openFile] at ht
    split at ht
    · simp at ht
    · rw [Except.ok.injEq] at ht
      subst ht
      simp [Synced]
  · intro p w r t hw
    exact synced_of_seek hw
  · intro d n t hw
    simp only [write] at hw
    split at hw
    · simp at hw
    · split at hw
      · rename_i q hq
        rw [Except.ok.injEq, Prod.mk.injEq] at hw
        obtain ⟨h1, h2⟩ := hw
        subst h2
        exact synced_of_seek (by rw [hq])
      · simp at hw
  · intro n out t hr hcase
    simp only [read] at hr
    split at hr
    · simp at hr
    · rw [Except.ok.injEq, Prod.mk.injEq] at hr
      obtain ⟨h1, h2⟩ := hr
      subst h2
      rw [Synced] at h
      rcases hcase with ⟨hn, hin⟩ | ⟨hn, hin⟩
      · have hne : n ≠ -1 := by omega
        have hlen : ((s.buffer.drop s.cursor).take n.toNat).length = n.toNat := by
          simp only [List.length_take, List.length_drop]
          omega
        show (if n ≠ -1 then s.pos + n else (s.buffer.length : Int)) =
            ((bioRead s.buffer s.cursor n).2 : Int)
        rw [if_pos hne]
        simp only [bioRead, if_neg (not_lt.mpr hn), hlen]
        omega
      · subst hn
        show (if (-1 : Int) ≠ -1 then s.pos + (-1) else (s.buffer.length : Int)) =
            ((bioRead s.buffer s.cursor (-1)).2 : Int)
        rw [if_neg (by simp)]
        simp only [bioRead, if_pos (by norm_num : (-1 : Int) < 0)]
        rw [max_eq_right hin]
  · simpa [truncate, Synced] using h
  · intro n hn
    simp only [truncate, Option.getD]
    rw [if_neg]
    · exact h
    · simp only [List.length_take]
      omega

/-- C6, witness for the amended theorem at a concrete synchronised
handle. -/
theorem c6_sync_witness :
    Synced (⟨[1, 2, 3], 0, 0, Mode.rw⟩ : FileState) ∧
    Synced (truncate (⟨[1, 2, 3], 0, 0, Mode.rw⟩ : FileState) none).2 :=
  ⟨by decide, (c6_sync_amended ⟨[1, 2, 3], 0, 0, Mode.rw⟩ (by decide)).2.2.2.2.1⟩

/-- C9: `seek(p, start)` fails with `ValueError` exactly when `p < 0` and
otherwise sets the position to `p`; `seek(p, current)` never fails and
clamps `pos + p` at a minimum of 0; `seek(p, end)` fails with `ValueError`
exactly when `p > 0` and otherwise clamps `length + p` at a minimum of 0;
every successful seek returns the new absolute position. -/
theorem c9_seek_bounds (s : FileState) (p : Int) :
    (p < 0 → seek s p .set = .error .valueError) ∧
    (0 ≤ p → seek s p .set = .ok (p, { s with pos := p, cursor := p.toNat })) ∧
    seek s p .cur =
      .ok (max 0 (s.pos + p),
           { s with pos := max 0 (s.pos + p), cursor := (max 0 (s.pos + p)).toNat }) ∧
    (0 < p → seek s p .end_ = .error .valueError) ∧
    (p ≤ 0 → seek s p .end_ =
      .ok (max 0 ((s.buffer.length : Int) + p),
           { s with pos := max 0 ((s.buffer.length : Int) + p),
                    cursor := (max 0 ((s.buffer.length : Int) + p)).toNat })) ∧
    (∀ w r t, seek s p w = .ok (r, t) → r = tell t) := by
  refine ⟨fun h => by simp [seek, h], fun h => by simp [seek, not_lt.mpr h],
    by simp [seek], fun h => by simp [seek, h], fun h => by simp [seek, not_lt.mpr h], ?_⟩
  intro w r t hw
  cases w <;> simp only [seek] at hw
  · split at hw
    · simp at hw
    · rw [Except.ok.injEq, Prod.mk.injEq] at hw
      obtain ⟨h1, h2⟩ := hw
      subst h1; subst h2; rfl
  · rw [Except.ok.injEq, Prod.mk.injEq] at hw
    obtain ⟨h1, h2⟩ := hw
    subst h1; subst h2; rfl
  · split at hw
    · simp at hw
    · rw [Except.ok.injEq, Prod.mk.injEq] at hw
      obtain ⟨h1, h2⟩ := hw
      subst h1; subst h2; rfl

end WebDAV
